import Mathlib

/-!
Verification development for the smartform-pro repository: a browser form
(app.js, class SmartFormApp) coupled to a webcam capture module
(camera.js, class CameraApp).  The JavaScript is shallowly embedded:
field validation, form validity, the submit flow and the camera state
machine become pure Lean functions over explicit state records; DOM
effects (error notifications, loading overlay, network requests,
downstream notifications, stopped media tracks) become logs carried in
the state or returned alongside it.
-/

/-! ### Character classes and string helpers (JavaScript semantics)

The regular expressions in app.js use the JavaScript classes:
whitespace is the class matched by a backslash-s (space, tab, line
terminators, NBSP and the other Unicode space separators), and a
backslash-d is exactly the ASCII digits 0-9.  String.prototype.trim
removes the same whitespace set from both ends.
-/

/-- JavaScript whitespace class: the characters matched by a backslash-s
in a JS regular expression (also the set trimmed by String.trim). -/
def isJsWs (c : Char) : Bool :=
  decide (c.toNat = 0x20) || decide (c.toNat = 0x09) || decide (c.toNat = 0x0a) ||
  decide (c.toNat = 0x0d) || decide (c.toNat = 0x0b) || decide (c.toNat = 0x0c) ||
  decide (c.toNat = 0xa0) || decide (c.toNat = 0x1680) ||
  (decide (0x2000 ≤ c.toNat) && decide (c.toNat ≤ 0x200a)) ||
  decide (c.toNat = 0x2028) || decide (c.toNat = 0x2029) ||
  decide (c.toNat = 0x202f) || decide (c.toNat = 0x205f) ||
  decide (c.toNat = 0x3000) || decide (c.toNat = 0xfeff)

/-- field.value.trim() from app.js: strip JS whitespace at both ends. -/
def jsTrim (s : String) : String :=
  String.mk (((s.toList.dropWhile isJsWs).reverse.dropWhile isJsWs).reverse)

/-- Character admitted by both bracket expressions of the email regex in
app.js validateField: anything that is neither whitespace nor the at
sign. -/
def isEmailChar (c : Char) : Bool :=
  !isJsWs c && c != '@'

/-- One candidate split of the email regex match: the input decomposes as
a prefix of length i, an at sign, a middle of length j, a dot and a
suffix, with all three pieces nonempty and made of email characters.
This is the body of the existential that JS regex backtracking decides
for the pattern in app.js validateField. -/
def emailSplit (l : List Char) (i j : Nat) : Bool :=
  decide ((l.drop i).take 1 = ['@']) &&
  decide ((((l.drop i).drop 1).drop j).take 1 = ['.']) &&
  decide (l.take i ≠ []) &&
  decide (((l.drop i).drop 1).take j ≠ []) &&
  decide ((((l.drop i).drop 1).drop j).drop 1 ≠ []) &&
  (l.take i).all isEmailChar &&
  (((l.drop i).drop 1).take j).all isEmailChar &&
  ((((l.drop i).drop 1).drop j).drop 1).all isEmailChar

/-- emailRegex.test(field.value) from app.js validateField: the anchored
pattern "one or more email chars, at sign, one or more email chars, dot,
one or more email chars" matches iff some split of the input fits it. -/
def emailRegexTest (s : String) : Bool :=
  (List.range (s.toList.length + 1)).any fun i =>
    (List.range (s.toList.length + 1)).any fun j => emailSplit s.toList i j

/-- JavaScript digit class: a backslash-d matches exactly the ASCII
digits, code points 0x30 to 0x39. -/
def isDigitChar (c : Char) : Bool :=
  decide (0x30 ≤ c.toNat) && decide (c.toNat ≤ 0x39)

/-- Character admitted by the phone regex bracket expression in app.js
validateField: digit, whitespace, hyphen, plus, parentheses. -/
def isPhoneChar (c : Char) : Bool :=
  isDigitChar c || isJsWs c || c == '-' || c == '+' || c == '(' || c == ')'

/-- phoneRegex.test(field.value) from app.js validateField: one or more
phone characters, anchored at both ends. -/
def phoneRegexTest (s : String) : Bool :=
  decide (s.toList ≠ []) && s.toList.all isPhoneChar

/-- field.value.replace(non-digits, empty).length from app.js
validateField: the number of ASCII digit characters in the value. -/
def digitCount (s : String) : Nat :=
  (s.toList.filter isDigitChar).length

/-! ### FormField validation (SmartFormApp.validateField) -/

/-- The input type attribute of a form field, as branched on by
validateField (text stands for any type that is neither email nor tel). -/
inductive FieldType where
  | text
  | email
  | tel
deriving DecidableEq, Repr

/-- One form field: its name, type attribute, required attribute,
current value, and the error presentation state (the error CSS class and
the inline error message element). -/
structure FormField where
  name : String
  ftype : FieldType
  required : Bool
  value : String
  errorClass : Bool
  errorMsg : String
deriving DecidableEq, Repr

/-- The check cascade of SmartFormApp.validateField: starting from
valid with an empty message, the required check, then the email check,
then the phone check each run in order, and each failing check
overwrites both the flag and the message.  Returns the final
(isValid, errorMessage) pair. -/
def runValidation (required : Bool) (ftype : FieldType) (value : String) :
    Bool × String :=
  let r1 : Bool × String :=
    if required && jsTrim value == "" then
      (false, "This field is required")
    else
      (true, "")
  let r2 : Bool × String :=
    if ftype = FieldType.email && value ≠ "" then
      if !emailRegexTest value then
        (false, "Please enter a valid email address")
      else r1
    else r1
  let r3 : Bool × String :=
    if ftype = FieldType.tel && value ≠ "" then
      if !phoneRegexTest value || digitCount value < 10 then
        (false, "Please enter a valid phone number")
      else r2
    else r2
  r3

/-- SmartFormApp.validateField: clears the previous error state, runs
the check cascade, and re-marks the field when invalid.  The updated
field carries errorClass and errorMsg; the returned Bool is the
function's return value isValid. -/
def validateField (f : FormField) : FormField × Bool :=
  let r := runValidation f.required f.ftype f.value
  ({ f with errorClass := !r.1, errorMsg := if r.1 then "" else r.2 }, r.1)

/-- Validity of a field under the validation rules alone (the isValid
result of validateField on its current value). -/
def fieldRuleValid (f : FormField) : Bool :=
  (runValidation f.required f.ftype f.value).1

/-! ### Form-level state and events (SmartFormApp) -/

/-- The mutable state of SmartFormApp that the claims are about: the form
fields, this.capturedImageData, and this.submitBtn.disabled. -/
structure FormState where
  fields : List FormField
  capturedImageData : Option String
  submitDisabled : Bool
deriving DecidableEq, Repr

/-- The per-field test inside SmartFormApp.checkFormValidity: the loop
body clears allValid when the trimmed value is empty or the field
carries the error class. -/
def fieldCheckOk (f : FormField) : Bool :=
  !(jsTrim f.value == "") && !f.errorClass

/-- The allValid value computed by SmartFormApp.checkFormValidity: every
required field passes the loop test, and capturedImageData is set. -/
def allValidCheck (st : FormState) : Bool :=
  (st.fields.all fun f => !f.required || fieldCheckOk f) &&
    st.capturedImageData.isSome

/-- SmartFormApp.checkFormValidity: recomputes allValid, writes the
submit button's disabled flag, and returns allValid. -/
def checkFormValidity (st : FormState) : FormState × Bool :=
  let allValid := allValidCheck st
  ({ st with submitDisabled := !allValid }, allValid)

/-- SmartFormApp.onImageCaptured: store the payload in
capturedImageData and recompute form validity. -/
def onImageCaptured (st : FormState) (img : Option String) : FormState :=
  (checkFormValidity { st with capturedImageData := img }).1

/-- Replace the field at the given index (out-of-range indices leave the
list unchanged, like a missing DOM element). -/
def modifyField (g : FormField → FormField) : List FormField → Nat → List FormField
  | [], _ => []
  | f :: fs, 0 => g f :: fs
  | f :: fs, n + 1 => f :: modifyField g fs n

/-- The input listener body from SmartFormApp.setupFormValidation: the
field is re-validated only when it currently carries the error class. -/
def inputListener (f : FormField) : FormField :=
  if f.errorClass then (validateField f).1 else f

/-- The user-visible events feeding SmartFormApp between submissions:
typing into a field (the browser updates the value, then the input
listener fires if one was attached), blurring a field, the camera
module's onImageCaptured notification, and the reset button. -/
inductive FormEvent where
  | input (i : Nat) (v : String)
  | blur (i : Nat)
  | imageCaptured (img : Option String)
  | reset
deriving DecidableEq, Repr

/-- Default field used only to read attributes of a possibly-missing
index. -/
def defaultField : FormField :=
  { name := "", ftype := FieldType.text, required := false, value := ""
    errorClass := false, errorMsg := "" }

/-- One step of the form's event handling.  setupFormValidation attaches
the blur and input listeners only to fields carrying the required
attribute, so events on other fields change the value without running
any validation or recomputing validity.  The input listener re-validates
only fields already in error and then calls checkFormValidity; blur
validates without recomputing validity; reset is
SmartFormApp.handleFormReset restricted to the form's own state. -/
def stepForm (st : FormState) : FormEvent → FormState
  | FormEvent.input i v =>
    let st1 : FormState :=
      { st with fields := modifyField (fun f => { f with value := v }) st.fields i }
    if ((st.fields.getD i defaultField)).required then
      let st2 : FormState :=
        { st1 with fields := modifyField inputListener st1.fields i }
      (checkFormValidity st2).1
    else st1
  | FormEvent.blur i =>
    if ((st.fields.getD i defaultField)).required then
      { st with fields := modifyField (fun f => (validateField f).1) st.fields i }
    else st
  | FormEvent.imageCaptured img => onImageCaptured st img
  | FormEvent.reset =>
    { fields := st.fields.map fun f => { f with value := "", errorClass := false, errorMsg := "" }
      capturedImageData := none
      submitDisabled := true }

/-- Run a sequence of events from a starting state. -/
def runEvents (st : FormState) (evs : List FormEvent) : FormState :=
  evs.foldl stepForm st

/-- Whether an event makes SmartFormApp rerun checkFormValidity: input
on a field that had the required attribute when listeners were attached,
or an onImageCaptured notification. -/
def recomputesValidity (st : FormState) : FormEvent → Bool
  | FormEvent.input i _ => ((st.fields.getD i defaultField)).required
  | FormEvent.imageCaptured _ => true
  | _ => false

/-- The invariant C1 claims: the submit affordance is enabled iff every
required field is valid under the validation rules and an image artifact
is present. -/
def claimC1Inv (st : FormState) : Prop :=
  st.submitDisabled = false ↔
    ((st.fields.all fun f => !f.required || fieldRuleValid f) = true ∧
      st.capturedImageData.isSome = true)

/-- The relation checkFormValidity actually establishes between the
submit affordance and the state it inspects. -/
def submitReadyInv (st : FormState) : Prop :=
  st.submitDisabled = false ↔ allValidCheck st = true

/-! ### Submission flow (SmartFormApp.getFormData / submitData /
handleFormSubmit) -/

/-- The endpoint constant from SmartFormApp.submitData. -/
def API_ENDPOINT : String :=
  "https://script.google.com/macros/s/AKfycbxTZP93ECiJz3Fl7QdIi1U1ckw5z3N67B0g5EIAiMZgGqlS8suM7qIyO-Jd04xBCf-X/exec"

/-- The object built by SmartFormApp.getFormData: the form's key/value
pairs plus the timestamp and imageData properties. -/
structure SubmissionData where
  fields : List (String × String)
  timestamp : String
  imageData : Option String
deriving DecidableEq, Repr

/-- SmartFormApp.getFormData: collect every field's name/value pair,
stamp the current time's ISO rendering, and attach capturedImageData.
The clock reading new Date().toISOString() is passed in as nowIso. -/
def getFormData (st : FormState) (nowIso : String) : SubmissionData :=
  { fields := st.fields.map fun f => (f.name, f.value)
    timestamp := nowIso
    imageData := st.capturedImageData }

/-- The data payload of a success response body. -/
structure RespData where
  submissionId : String
  timestamp : String
  message : String
deriving DecidableEq, Repr

/-- A parsed response body from the endpoint. -/
structure RespBody where
  success : Bool
  message : Option String
  data : Option RespData
deriving DecidableEq, Repr

/-- What the network does on one fetch: the fetch promise rejects, the
response arrives non-2xx (response.ok false), the response is 2xx but
response.json() rejects, or a body parses. -/
inductive NetOutcome where
  | fetchFail
  | httpNotOk (status : Nat)
  | okParseFail
  | okBody (b : RespBody)
deriving DecidableEq, Repr

/-- One fetch call as issued by SmartFormApp.submitData. -/
structure Request where
  url : String
  method : String
  contentTypeHeader : String
  body : SubmissionData
deriving DecidableEq, Repr

/-- The single fetch SmartFormApp.submitData issues: POST to
API_ENDPOINT with the JSON content type and the JSON-encoded data. -/
def makeRequest (data : SubmissionData) : Request :=
  { url := API_ENDPOINT, method := "POST"
    contentTypeHeader := "application/json", body := data }

/-- The value returned from submitData's catch block: a simulated
successful response whose submissionId is the SUB_ prefix plus
Date.now() and whose timestamp is copied from the submitted data. -/
def simulatedResponse (nowEpoch : Nat) (data : SubmissionData) : RespBody :=
  { success := true
    message := none
    data := some { submissionId := "SUB_" ++ toString nowEpoch
                   timestamp := data.timestamp
                   message := "Data submitted successfully" } }

/-- SmartFormApp.submitData: issue the fetch; a parsed 2xx body is
returned as-is, and every other outcome (rejected fetch, non-2xx status
thrown as an error, json() rejection) is caught and replaced by the
simulated response.  Returns the response value together with the list
of fetch calls issued. -/
def submitData (net : NetOutcome) (nowEpoch : Nat) (data : SubmissionData) :
    RespBody × List Request :=
  match net with
  | NetOutcome.okBody b => (b, [makeRequest data])
  | _ => (simulatedResponse nowEpoch data, [makeRequest data])

/-- Whether submitData's result makes the caller take its error branch:
only a parsed body whose success flag is false. -/
def netServerFailure : NetOutcome → Bool
  | NetOutcome.okBody b => !b.success
  | _ => false

/-- JavaScript's a-or-else-b on an optional string (empty counts as
falsy), as in response.message or-else a fallback. -/
def jsOrElse (s : Option String) (fallback : String) : String :=
  match s with
  | some m => if m = "" then fallback else m
  | none => fallback

/-- The observable effects of one run of SmartFormApp.handleFormSubmit:
error notifications shown, the success modal's data if shown, whether
the loading overlay was ever shown, whether it is still shown at the
end, and the fetch calls issued. -/
structure SubmitLog where
  errorNotifications : List String
  successShown : Option RespData
  loadingShownEver : Bool
  loadingAtEnd : Bool
  requests : List Request
deriving DecidableEq, Repr

/-- SmartFormApp.handleFormSubmit: prevent default, recompute validity
and abort with a blocking error when false; otherwise show the loading
overlay, build the data, await submitData, show success for a success
response or throw the response message (caught and shown as an error
notification, with fallbacks for empty messages); the finally block
always hides the loading overlay. -/
def handleFormSubmit (st : FormState) (net : NetOutcome) (nowIso : String)
    (nowEpoch : Nat) : FormState × SubmitLog :=
  let c := checkFormValidity st
  if !c.2 then
    (c.1, { errorNotifications := ["Please complete all required fields and capture a photo"]
            successShown := none, loadingShownEver := false
            loadingAtEnd := false, requests := [] })
  else
    let data := getFormData c.1 nowIso
    let r := submitData net nowEpoch data
    if r.1.success then
      (c.1, { errorNotifications := [], successShown := r.1.data
              loadingShownEver := true, loadingAtEnd := false
              requests := r.2 })
    else
      let thrown := jsOrElse r.1.message "Submission failed"
      let shown := if thrown = "" then "An error occurred during submission" else thrown
      (c.1, { errorNotifications := [shown], successShown := none
              loadingShownEver := true, loadingAtEnd := false
              requests := r.2 })

/-! ### Camera module (camera.js, class CameraApp)

The MediaStream is modelled as the list of its track identifiers; a
track.stop() call appends the track to a global stop log.  The
onImageCaptured notifications sent to SmartFormApp are also logged, so
"notifies downstream exactly once" is a statement about that log. -/

/-- The mutable state of CameraApp: this.stream, this.isCaptured, the
hidden classes of the video, still image and three buttons, the still
image source, the video srcObject and the status line. -/
structure CameraState where
  stream : Option (List Nat)
  isCaptured : Bool
  videoHidden : Bool
  capturedImageHidden : Bool
  capturedImageSrc : Option String
  videoSrcObject : Option (List Nat)
  startBtnHidden : Bool
  captureBtnHidden : Bool
  retakeBtnHidden : Bool
  status : String
deriving DecidableEq, Repr

/-- The spec's CaptureState enum. -/
inductive CaptureState where
  | Idle
  | Active
  | Captured
deriving DecidableEq, Repr

/-- The capture state a CameraApp state presents: no stream is Idle, a
stream with a captured still is Captured, otherwise Active. -/
def captureState (c : CameraState) : CaptureState :=
  match c.stream with
  | none => CaptureState.Idle
  | some _ => if c.isCaptured then CaptureState.Captured else CaptureState.Active

/-- The whole page: the camera module, the form module, the log of every
track.stop() call and the log of every onImageCaptured payload. -/
structure AppState where
  camera : CameraState
  form : FormState
  stoppedTracks : List Nat
  notified : List (Option String)
deriving DecidableEq, Repr

/-- CameraApp.showStartControls. -/
def showStartControls (c : CameraState) : CameraState :=
  { c with startBtnHidden := false, captureBtnHidden := true, retakeBtnHidden := true }

/-- CameraApp.showCaptureControls. -/
def showCaptureControls (c : CameraState) : CameraState :=
  { c with startBtnHidden := true, captureBtnHidden := false, retakeBtnHidden := true }

/-- CameraApp.showRetakeControls. -/
def showRetakeControls (c : CameraState) : CameraState :=
  { c with startBtnHidden := true, captureBtnHidden := true, retakeBtnHidden := false }

/-- CameraApp.startCamera on the success path, after onloadedmetadata:
the acquired stream is stored and displayed and the capture controls are
shown. -/
def startCameraSuccess (a : AppState) (tracks : List Nat) : AppState :=
  let cam : CameraState :=
    { a.camera with
      stream := some tracks
      videoSrcObject := some tracks
      status := "Camera ready - Position yourself and click Capture Photo" }
  { a with camera := showCaptureControls cam }

/-- CameraApp.capturePhoto on the success path: the still is produced
from the live frame, shown in place of the video, isCaptured is set, the
retake controls are shown, and window.smartFormApp.onImageCaptured is
called with the image (logged). -/
def capturePhoto (a : AppState) (imageData : String) : AppState :=
  let cam : CameraState :=
    { a.camera with
      capturedImageSrc := some imageData
      capturedImageHidden := false
      videoHidden := true
      isCaptured := true
      status := "Photo captured successfully!" }
  { a with
    camera := showRetakeControls cam
    form := onImageCaptured a.form (some imageData)
    notified := a.notified ++ [some imageData] }

/-- CameraApp.retakePhoto: hide the still, show the video, clear
isCaptured, show the capture controls, and notify
window.smartFormApp.onImageCaptured with null (logged).  The stream
field is not touched and no track is stopped. -/
def retakePhoto (a : AppState) : AppState :=
  let cam : CameraState :=
    { a.camera with
      capturedImageHidden := true
      videoHidden := false
      isCaptured := false
      status := "Position yourself and click Capture Photo" }
  { a with
    camera := showCaptureControls cam
    form := onImageCaptured a.form none
    notified := a.notified ++ [none] }

/-- CameraApp.resetCamera: stop every track of the held stream (each
stop appended to the log) and null the stream, reset the UI to the start
controls, clear isCaptured, and null the video source.  No
onImageCaptured call is made and the form is not touched. -/
def resetCamera (a : AppState) : AppState :=
  let cam : CameraState :=
    { a.camera with
      stream := none
      videoHidden := false
      capturedImageHidden := true
      isCaptured := false
      status := "Click \x22Start Camera\x22 to begin"
      videoSrcObject := none }
  { a with
    camera := showStartControls cam
    stoppedTracks := a.stoppedTracks ++ (a.camera.stream.getD []) }

/-- CameraApp.destroy, the beforeunload cleanup: it just calls
resetCamera. -/
def destroy (a : AppState) : AppState :=
  resetCamera a

/-- SmartFormApp.handleFormReset on the whole page: reset every field's
value and error presentation, null capturedImageData, disable the submit
button, then call window.cameraApp.resetCamera. -/
def handleFormReset (a : AppState) : AppState :=
  resetCamera
    { a with form :=
        { fields := a.form.fields.map fun f => { f with value := "", errorClass := false, errorMsg := "" }
          capturedImageData := none
          submitDisabled := true } }

/-! ### Spec-side predicates (stated from the claims, for comparison) -/

/-- The email shape claim C5 describes: one or more non-whitespace-non-at
characters, an at sign, one or more, a dot, one or more. -/
def EmailShape (l : List Char) : Prop :=
  ∃ x y z : List Char,
    x ≠ [] ∧ y ≠ [] ∧ z ≠ [] ∧
    (∀ c ∈ x, isEmailChar c = true) ∧ (∀ c ∈ y, isEmailChar c = true) ∧
    (∀ c ∈ z, isEmailChar c = true) ∧
    l = x ++ '@' :: (y ++ '.' :: z)

/-- The characters claim C6 permits in a phone value: digits, spaces,
hyphens, parentheses and plus signs (note: the space character only, not
the whole whitespace class). -/
def isClaimedPhoneChar (c : Char) : Bool :=
  isDigitChar c || c == ' ' || c == '-' || c == '(' || c == ')' || c == '+'

/-! ### Concrete states used by counterexamples and witnesses -/

/-- A single required email field, initially empty and unmarked. -/
def emailField0 : FormField :=
  { name := "email", ftype := FieldType.email, required := true
    value := "", errorClass := false, errorMsg := "" }

/-- Fresh form around emailField0: no image, submit disabled. -/
def formInit : FormState :=
  { fields := [emailField0], capturedImageData := none, submitDisabled := true }

/-- A form that checkFormValidity accepts: one filled required text
field and a captured image. -/
def validForm : FormState :=
  { fields := [{ name := "fullName", ftype := FieldType.text, required := true
                 value := "John", errorClass := false, errorMsg := "" }]
    capturedImageData := some "data:image/jpeg;base64,AAAA"
    submitDisabled := false }

/-- An invalid form: the single required field is empty. -/
def invalidForm : FormState :=
  { fields := [emailField0], capturedImageData := some "data:image/jpeg;base64,AAAA"
    submitDisabled := true }

/-- A page in the Captured state: a live two-track stream, a captured
still handed to the form, one notification logged. -/
def capturedApp : AppState :=
  { camera :=
      { stream := some [7, 8], isCaptured := true
        videoHidden := true, capturedImageHidden := false
        capturedImageSrc := some "IMG", videoSrcObject := some [7, 8]
        startBtnHidden := true, captureBtnHidden := true, retakeBtnHidden := false
        status := "Photo captured successfully!" }
    form :=
      { fields := [{ name := "fullName", ftype := FieldType.text, required := true
                     value := "John", errorClass := false, errorMsg := "" }]
        capturedImageData := some "IMG"
        submitDisabled := false }
    stoppedTracks := []
    notified := [some "IMG"] }

/-- The event trace of the C1 counterexample: an image is captured, then
the user types an invalid email into the (never-blurred) required email
field.  The input listener skips re-validation because the field is not
in error, and checkFormValidity sees a nonempty trimmed value with no
error class. -/
def c1Final : FormState :=
  runEvents formInit [FormEvent.imageCaptured (some "IMG"), FormEvent.input 0 "abc"]

/-! ## Helper lemmas -/

/-- allValidCheck ignores the submit button flag. -/
theorem allValidCheck_set_disabled (st : FormState) (b : Bool) :
    allValidCheck { st with submitDisabled := b } = allValidCheck st := rfl

/-- After any run of checkFormValidity, the submit flag agrees with the
recomputed validity. -/
theorem submitReady_check (st : FormState) : submitReadyInv (checkFormValidity st).1 := by
  unfold submitReadyInv checkFormValidity
  cases h : allValidCheck st <;>
    simp [allValidCheck_set_disabled, h]

/-- A string whose JS trim is empty is made of JS whitespace only. -/
theorem jsTrim_eq_empty (s : String) (h : jsTrim s = "") :
    ∀ c ∈ s.toList, isJsWs c = true := by
  intro c hc
  unfold jsTrim at h
  have h2 : ((s.toList.dropWhile isJsWs).reverse.dropWhile isJsWs).reverse = [] := by
    have := congrArg String.data h
    simpa using this
  rw [List.reverse_eq_nil_iff, List.dropWhile_eq_nil_iff] at h2
  have h3 : ∀ x ∈ s.toList.dropWhile isJsWs, isJsWs x = true := by
    intro x hx
    exact h2 x (List.mem_reverse.mpr hx)
  have h4 : c ∈ s.toList.takeWhile isJsWs ∨ c ∈ s.toList.dropWhile isJsWs := by
    rw [← List.mem_append, List.takeWhile_append_dropWhile]
    exact hc
  rcases h4 with h4 | h4
  · exact List.mem_takeWhile_imp h4
  · exact h3 c h4

/-- A string containing a non-whitespace character trims to something
nonempty. -/
theorem jsTrim_ne_empty (s : String) (c : Char) (hc : c ∈ s.toList)
    (hw : isJsWs c = false) : jsTrim s ≠ "" := by
  intro h
  have := jsTrim_eq_empty s h c hc
  rw [hw] at this
  cases this

/-- JS whitespace characters are not digits. -/
theorem isJsWs_not_digit (c : Char) (h : isJsWs c = true) : isDigitChar c = false := by
  unfold isJsWs at h
  unfold isDigitChar
  simp only [Bool.or_eq_true, Bool.and_eq_true, decide_eq_true_eq] at h
  rw [Bool.and_eq_false_iff]
  simp only [decide_eq_false_iff_not]
  omega

/-- Digits are not JS whitespace. -/
theorem digit_not_ws (c : Char) (h : isDigitChar c = true) : isJsWs c = false := by
  cases hw : isJsWs c
  · rfl
  · rw [isJsWs_not_digit c hw] at h
    cases h

/-- JS whitespace is accepted by the phone bracket expression. -/
theorem phone_of_ws (c : Char) (h : isJsWs c = true) : isPhoneChar c = true := by
  unfold isPhoneChar
  simp [h]

/-- An all-whitespace string has no digits. -/
theorem digitCount_ws (s : String) (h : ∀ c ∈ s.toList, isJsWs c = true) :
    digitCount s = 0 := by
  unfold digitCount
  rw [List.length_eq_zero, List.filter_eq_nil_iff]
  intro a ha
  rw [isJsWs_not_digit a (h a ha)]
  simp

/-- A string with ten digits contains a digit character. -/
theorem digit_mem_of_count (s : String) (h : 10 ≤ digitCount s) :
    ∃ c ∈ s.toList, isDigitChar c = true := by
  unfold digitCount at h
  have hne : s.toList.filter isDigitChar ≠ [] := by
    intro he
    rw [he] at h
    simp at h
  obtain ⟨c, hc⟩ := List.exists_mem_of_ne_nil _ hne
  exact ⟨c, (List.mem_filter.mp hc).1, (List.mem_filter.mp hc).2⟩

/-- On an empty value only the required check can fire. -/
theorem runValidation_empty (r : Bool) (ft : FieldType) :
    runValidation r ft "" =
      if r then (false, "This field is required") else (true, "") := by
  unfold runValidation
  have ht : jsTrim "" == "" := by rfl
  simp [ht]

/-- On a plain text field only the required check can fire. -/
theorem runValidation_text (r : Bool) (s : String) :
    runValidation r FieldType.text s =
      if r && jsTrim s == "" then (false, "This field is required")
      else (true, "") := by
  unfold runValidation
  simp

/-- On a nonempty email field the email check runs after the required
check and overwrites its result when the regex fails. -/
theorem runValidation_email (r : Bool) (s : String) (hs : s ≠ "") :
    runValidation r FieldType.email s =
      if !emailRegexTest s then (false, "Please enter a valid email address")
      else if r && jsTrim s == "" then (false, "This field is required")
      else (true, "") := by
  unfold runValidation
  simp [hs]

/-- On a nonempty tel field the phone check runs after the required
check and overwrites its result when it fails. -/
theorem runValidation_tel (r : Bool) (s : String) (hs : s ≠ "") :
    runValidation r FieldType.tel s =
      if !phoneRegexTest s || digitCount s < 10 then
        (false, "Please enter a valid phone number")
      else if r && jsTrim s == "" then (false, "This field is required")
      else (true, "") := by
  unfold runValidation
  simp [hs]

/-- The bounded split search performed by emailRegexTest succeeds
exactly on strings of the claimed shape: local part, at sign, domain,
dot, tld, each one or more non-whitespace-non-at characters. -/
theorem emailRegexTest_iff (s : String) :
    emailRegexTest s = true ↔ EmailShape s.toList := by
  unfold emailRegexTest
  simp only [List.any_eq_true, List.mem_range]
  constructor
  · rintro ⟨i, hi, j, hj, hsp⟩
    unfold emailSplit at hsp
    simp only [Bool.and_eq_true, decide_eq_true_eq, List.all_eq_true] at hsp
    obtain ⟨⟨⟨⟨⟨⟨⟨hat, hdot⟩, hx⟩, hy⟩, hz⟩, hxa⟩, hya⟩, hza⟩ := hsp
    have hr : s.toList.drop i = '@' :: ((s.toList.drop i).drop 1) := by
      have h0 := List.take_append_drop 1 (s.toList.drop i)
      rw [hat] at h0
      exact h0.symm
    obtain ⟨t, ht⟩ : ∃ t, s.toList.drop i = '@' :: t := ⟨_, hr⟩
    rw [ht] at hdot hy hz hya hza
    simp only [List.drop_succ_cons, List.drop_zero] at hdot hy hz hya hza
    have hu : t.drop j = '.' :: ((t.drop j).drop 1) := by
      have h0 := List.take_append_drop 1 (t.drop j)
      rw [hdot] at h0
      exact h0.symm
    obtain ⟨zz, hzz⟩ : ∃ zz, t.drop j = '.' :: zz := ⟨_, hu⟩
    rw [hzz] at hz hza
    simp only [List.drop_succ_cons, List.drop_zero] at hz hza
    refine ⟨s.toList.take i, t.take j, zz, hx, hy, hz, hxa, hya, hza, ?_⟩
    calc s.toList = s.toList.take i ++ s.toList.drop i :=
          (List.take_append_drop i s.toList).symm
      _ = s.toList.take i ++ ('@' :: t) := by rw [ht]
      _ = s.toList.take i ++ ('@' :: (t.take j ++ t.drop j)) := by
          rw [List.take_append_drop j t]
      _ = s.toList.take i ++ ('@' :: (t.take j ++ ('.' :: zz))) := by rw [hzz]
  · rintro ⟨x, y, z, hx, hy, hz, hxa, hya, hza, heq⟩
    refine ⟨x.length, ?_, y.length, ?_, ?_⟩
    · rw [heq]
      simp only [List.length_append, List.length_cons]
      omega
    · rw [heq]
      simp only [List.length_append, List.length_cons]
      omega
    · rw [heq]
      unfold emailSplit
      simp only [List.drop_left, List.take_left, List.drop_succ_cons, List.drop_zero,
        Bool.and_eq_true, decide_eq_true_eq, List.all_eq_true]
      refine ⟨⟨⟨⟨⟨⟨⟨rfl, rfl⟩, hx⟩, hy⟩, hz⟩, hxa⟩, hya⟩, hza⟩

/-- A string the email regex accepts cannot trim to empty: it contains
an at sign, which is not whitespace. -/
theorem jsTrim_ne_empty_of_email (s : String) (h : emailRegexTest s = true) :
    jsTrim s ≠ "" := by
  obtain ⟨x, y, z, _, _, _, _, _, _, heq⟩ := (emailRegexTest_iff s).mp h
  have hat : '@' ∈ s.toList := by
    rw [heq]
    simp
  exact jsTrim_ne_empty s '@' hat (by decide)

/-- An all-whitespace string fails the email regex. -/
theorem emailRegexTest_ws (s : String) (h : ∀ c ∈ s.toList, isJsWs c = true) :
    emailRegexTest s = false := by
  cases he : emailRegexTest s
  · rfl
  · obtain ⟨x, y, z, _, _, _, _, _, _, heq⟩ := (emailRegexTest_iff s).mp he
    have hat : '@' ∈ s.toList := by
      rw [heq]
      simp
    exact absurd (h '@' hat) (by decide)

/-- A string with ten digits cannot trim to empty. -/
theorem jsTrim_ne_empty_of_digits (s : String) (h : 10 ≤ digitCount s) :
    jsTrim s ≠ "" := by
  obtain ⟨c, hc, hcd⟩ := digit_mem_of_count s h
  exact jsTrim_ne_empty s c hc (digit_not_ws c hcd)

/-- Strings are equal iff their character lists are (bridging the
nonemptiness hypothesis to the list level). -/
theorem toList_ne_nil (s : String) (hs : s ≠ "") : s.toList ≠ [] := by
  intro h
  exact hs (String.ext h)

/-! ## Claim theorems -/

/-- C5: for every nonempty value and either required flag, an
email-typed field passes validateField's cascade iff the value has the
claimed local-at-domain-dot-tld shape over non-whitespace-non-at
characters. -/
theorem email_validity_iff_shape (r : Bool) (s : String) (hs : s ≠ "") :
    (runValidation r FieldType.email s).1 = true ↔ EmailShape s.toList := by
  rw [runValidation_email r s hs]
  cases hE : emailRegexTest s
  · rw [← emailRegexTest_iff]
    simp [hE]
  · have htr : jsTrim s ≠ "" := jsTrim_ne_empty_of_email s hE
    have hbeq : (jsTrim s == "") = false := beq_eq_false_iff_ne.mpr htr
    rw [← emailRegexTest_iff]
    simp [hE, hbeq]

/-- C5 witness: the example from the spec, a-at-b-dot-co, is nonempty
and the equivalence holds there. -/
theorem email_validity_iff_shape_witness :
    "a@b.co" ≠ "" ∧
      ((runValidation true FieldType.email "a@b.co").1 = true ↔
        EmailShape "a@b.co".toList) :=
  ⟨by decide, email_validity_iff_shape true "a@b.co" (by decide)⟩

/-- C6 counterexample: a value of digits separated by tabs is accepted
by validateField's phone check (the regex class is all JS whitespace),
yet it contains characters outside the claimed set of digits, spaces,
hyphens, parentheses and plus signs — so validity is not equivalent to
the claimed character test. -/
theorem phone_validity_claim_false :
    (runValidation false FieldType.tel "123\t456\t7890").1 = true ∧
      "123\t456\t7890".toList.all isClaimedPhoneChar = false := by
  decide

/-- C6 amended: for every nonempty value and either required flag, a
tel-typed field passes validateField's cascade iff the value consists
only of phone characters (digits, any JS whitespace, hyphens,
parentheses, plus signs) and holds at least ten digit characters. -/
theorem phone_validity_iff (r : Bool) (s : String) (hs : s ≠ "") :
    (runValidation r FieldType.tel s).1 = true ↔
      (s.toList.all isPhoneChar = true ∧ 10 ≤ digitCount s) := by
  have hnil : s.toList ≠ [] := toList_ne_nil s hs
  rw [runValidation_tel r s hs]
  have hreg : phoneRegexTest s = s.toList.all isPhoneChar := by
    unfold phoneRegexTest
    rw [decide_eq_true hnil, Bool.true_and]
  by_cases hall : s.toList.all isPhoneChar = true
  · by_cases hge : 10 ≤ digitCount s
    · have hcond : (!phoneRegexTest s || decide (digitCount s < 10)) = false := by
        rw [hreg, hall]
        simp
        omega
      have htr : jsTrim s ≠ "" := jsTrim_ne_empty_of_digits s hge
      have hbeq : (jsTrim s == "") = false := beq_eq_false_iff_ne.mpr htr
      simp only [hcond, hbeq, Bool.and_false, Bool.false_eq_true, if_false]
      simp [hge]
      exact List.all_eq_true.mp hall
    · have hcond : (!phoneRegexTest s || decide (digitCount s < 10)) = true := by
        rw [hreg, hall]
        simp
        omega
      simp only [hcond, if_true]
      simp [hge]
  · have hallf : s.toList.all isPhoneChar = false := by
      cases h : s.toList.all isPhoneChar
      · rfl
      · exact absurd h hall
    have hcond : (!phoneRegexTest s || decide (digitCount s < 10)) = true := by
      rw [hreg, hallf]
      simp
    simp only [hcond, if_true]
    simp [hallf]
    intro hA
    exact absurd (List.all_eq_true.mpr hA) hall

/-- C6 witness: the spec's example phone number is nonempty and the
amended equivalence holds there. -/
theorem phone_validity_iff_witness :
    "(555) 123-4567" ≠ "" ∧
      ((runValidation true FieldType.tel "(555) 123-4567").1 = true ↔
        ("(555) 123-4567".toList.all isPhoneChar = true ∧
          10 ≤ digitCount "(555) 123-4567")) :=
  ⟨by decide, phone_validity_iff true "(555) 123-4567" (by decide)⟩

/-- C3 counterexample: a required email field holding a single space is
marked invalid, but its message is the email-format one — the later
email check overwrites the required-check message, so the required
message does not take precedence. -/
theorem required_message_not_precedent :
    (validateField { emailField0 with value := " " }).2 = false ∧
      (validateField { emailField0 with value := " " }).1.errorMsg =
        "Please enter a valid email address" ∧
      (validateField { emailField0 with value := " " }).1.errorMsg ≠
        "This field is required" := by
  decide

/-- C3 amended: a required field whose value trims to empty is always
marked invalid; the surfaced message is the required one for empty
values and for plain text fields, but for nonempty whitespace-only
values on email and tel fields the later format check overwrites it
(the last failing check wins, not the first). -/
theorem required_empty_invalid (f : FormField) (hreq : f.required = true)
    (htrim : jsTrim f.value = "") :
    (validateField f).2 = false ∧ (validateField f).1.errorClass = true ∧
      (validateField f).1.errorMsg =
        (if f.value = "" then "This field is required"
         else match f.ftype with
              | FieldType.text => "This field is required"
              | FieldType.email => "Please enter a valid email address"
              | FieldType.tel => "Please enter a valid phone number") := by
  unfold validateField
  have hbeq : (jsTrim f.value == "") = true := beq_iff_eq.mpr htrim
  by_cases hv : f.value = ""
  · rw [hv, runValidation_empty, hreq, if_pos rfl]
    simp [hv]
  · have hws : ∀ c ∈ f.value.toList, isJsWs c = true := jsTrim_eq_empty f.value htrim
    cases hft : f.ftype
    · rw [runValidation_text, hreq, hbeq]
      simp [hv]
    · have hE : emailRegexTest f.value = false := emailRegexTest_ws f.value hws
      rw [runValidation_email f.required f.value hv, hE]
      simp [hv]
    · have hreg : phoneRegexTest f.value = true := by
        unfold phoneRegexTest
        rw [decide_eq_true (toList_ne_nil f.value hv), Bool.true_and]
        rw [List.all_eq_true]
        intro c hc
        exact phone_of_ws c (hws c hc)
      have hd : digitCount f.value = 0 := digitCount_ws f.value hws
      rw [runValidation_tel f.required f.value hv, hreg, hd]
      simp [hv]

/-- C3 witness: the empty required email field gets the required
message. -/
theorem required_empty_invalid_witness :
    emailField0.required = true ∧ jsTrim emailField0.value = "" ∧
      ((validateField emailField0).2 = false ∧
        (validateField emailField0).1.errorClass = true ∧
        (validateField emailField0).1.errorMsg =
          (if emailField0.value = "" then "This field is required"
           else match emailField0.ftype with
                | FieldType.text => "This field is required"
                | FieldType.email => "Please enter a valid email address"
                | FieldType.tel => "Please enter a valid phone number")) :=
  ⟨by decide, by decide, required_empty_invalid emailField0 (by decide) (by decide)⟩

/-- C1 counterexample: after capturing an image and typing the invalid
email value abc into the never-blurred required field, the submit
affordance is enabled (checkFormValidity saw a nonempty trimmed value
with no error class) while the field is invalid under the validation
rules — the claimed iff invariant fails at this reachable state. -/
theorem submit_enabled_invariant_false : ¬ claimC1Inv c1Final := by
  unfold claimC1Inv
  decide

/-- C1 amended: the flag tracks checkFormValidity's own test — nonempty
trimmed value and no error marking on every required field, plus image
presence — and only at the points where checkFormValidity reruns: after
an input event on a required field or an onImageCaptured notification.
A blur event validates without touching the flag. -/
theorem submit_flag_tracks_check (st : FormState) (ev : FormEvent) (i : Nat)
    (h : recomputesValidity st ev = true) :
    submitReadyInv (stepForm st ev) ∧
      (stepForm st (FormEvent.blur i)).submitDisabled = st.submitDisabled := by
  constructor
  · cases ev with
    | input k v =>
      simp only [recomputesValidity] at h
      simp only [stepForm]
      rw [if_pos h]
      exact submitReady_check _
    | blur k =>
      simp only [recomputesValidity] at h
      cases h
    | imageCaptured img =>
      simp only [stepForm, onImageCaptured]
      exact submitReady_check _
    | reset =>
      simp only [recomputesValidity] at h
      cases h
  · simp only [stepForm]
    by_cases hreq : ((st.fields.getD i defaultField)).required = true
    · rw [if_pos hreq]
    · rw [if_neg hreq]

/-- C1 witness: the image-captured event on the fresh form recomputes
the flag and the amended invariant holds afterwards. -/
theorem submit_flag_tracks_check_witness :
    recomputesValidity formInit (FormEvent.imageCaptured (some "IMG")) = true ∧
      (submitReadyInv (stepForm formInit (FormEvent.imageCaptured (some "IMG"))) ∧
        (stepForm formInit (FormEvent.blur 0)).submitDisabled = formInit.submitDisabled) :=
  ⟨by decide, submit_flag_tracks_check formInit (FormEvent.imageCaptured (some "IMG")) 0 (by decide)⟩

/-- C7: when checkFormValidity reports false at submit, the handler
shows the blocking error and returns before showing the loading overlay
or issuing any fetch. -/
theorem invalid_submit_aborts (st : FormState) (net : NetOutcome)
    (nowIso : String) (nowEpoch : Nat)
    (h : (checkFormValidity st).2 = false) :
    (handleFormSubmit st net nowIso nowEpoch).2.errorNotifications =
        ["Please complete all required fields and capture a photo"] ∧
      (handleFormSubmit st net nowIso nowEpoch).2.requests = [] ∧
      (handleFormSubmit st net nowIso nowEpoch).2.loadingShownEver = false := by
  simp only [handleFormSubmit]
  rw [h]
  simp

/-- C7 witness: the form with an empty required field and a captured
image is rejected without a request or the loading overlay. -/
theorem invalid_submit_aborts_witness :
    (checkFormValidity invalidForm).2 = false ∧
      ((handleFormSubmit invalidForm NetOutcome.fetchFail "2024-05-01T10:00:00.000Z" 1700).2.errorNotifications =
          ["Please complete all required fields and capture a photo"] ∧
        (handleFormSubmit invalidForm NetOutcome.fetchFail "2024-05-01T10:00:00.000Z" 1700).2.requests = [] ∧
        (handleFormSubmit invalidForm NetOutcome.fetchFail "2024-05-01T10:00:00.000Z" 1700).2.loadingShownEver = false) :=
  ⟨by decide,
    invalid_submit_aborts invalidForm NetOutcome.fetchFail "2024-05-01T10:00:00.000Z" 1700 (by decide)⟩

/-- C8: a submission that passes checkFormValidity issues exactly one
request: a POST to the configured endpoint with the JSON content type,
whose body holds every field's name/value pair, the clock reading taken
at submission as its timestamp, and the currently captured artifact as
imageData (present, since validity requires it). -/
theorem valid_submission_single_post (st : FormState) (net : NetOutcome)
    (nowIso : String) (nowEpoch : Nat)
    (hv : (checkFormValidity st).2 = true) :
    (handleFormSubmit st net nowIso nowEpoch).2.requests =
        [{ url := API_ENDPOINT, method := "POST"
           contentTypeHeader := "application/json"
           body := { fields := st.fields.map fun f => (f.name, f.value)
                     timestamp := nowIso
                     imageData := st.capturedImageData } }] ∧
      st.capturedImageData.isSome = true := by
  constructor
  · simp only [handleFormSubmit]
    rw [hv]
    cases net with
    | okBody b =>
      cases hb : b.success <;>
        simp [submitData, makeRequest, getFormData, checkFormValidity, hb]
    | fetchFail => simp [submitData, makeRequest, getFormData, checkFormValidity, simulatedResponse]
    | httpNotOk status => simp [submitData, makeRequest, getFormData, checkFormValidity, simulatedResponse]
    | okParseFail => simp [submitData, makeRequest, getFormData, checkFormValidity, simulatedResponse]
  · have : allValidCheck st = true := hv
    unfold allValidCheck at this
    exact (Bool.and_eq_true _ _ ▸ this).2

/-- C8 witness: the valid one-field form issues the single POST with its
field pair, the clock reading and the captured artifact. -/
theorem valid_submission_single_post_witness :
    (checkFormValidity validForm).2 = true ∧
      ((handleFormSubmit validForm NetOutcome.okParseFail "2024-05-01T10:00:00.000Z" 1700).2.requests =
          [{ url := API_ENDPOINT, method := "POST"
             contentTypeHeader := "application/json"
             body := { fields := validForm.fields.map fun f => (f.name, f.value)
                       timestamp := "2024-05-01T10:00:00.000Z"
                       imageData := validForm.capturedImageData } }] ∧
        validForm.capturedImageData.isSome = true) :=
  ⟨by decide,
    valid_submission_single_post validForm NetOutcome.okParseFail "2024-05-01T10:00:00.000Z" 1700 (by decide)⟩

/-- C2 counterexample: on a non-2xx response the flow shows no error
notification at all — it shows the synthesized success record instead —
so the claimed error-notification-AND-synthesis behavior fails at this
input. -/
theorem failure_shows_no_error :
    (handleFormSubmit validForm (NetOutcome.httpNotOk 500) "2024-05-01T10:00:00.000Z" 1700).2.errorNotifications = [] ∧
      (handleFormSubmit validForm (NetOutcome.httpNotOk 500) "2024-05-01T10:00:00.000Z" 1700).2.successShown =
        some { submissionId := "SUB_1700", timestamp := "2024-05-01T10:00:00.000Z"
               message := "Data submitted successfully" } := by
  decide

/-- C2 amended: the two behaviors occur in disjoint cases.  On a rejected
fetch, a non-2xx status, or a parse failure, no error notification is
surfaced and the synthesized record (prefix SUB_ plus the epoch clock,
passthrough timestamp) is shown as a success; only on a parsed body with
success false is an error notification surfaced (server message, or the
generic fallback for an absent or empty message) with nothing
synthesized. -/
theorem failure_mode_split (st : FormState) (nowIso : String) (nowEpoch : Nat)
    (status : Nat) (b : RespBody)
    (hv : (checkFormValidity st).2 = true) (hb : b.success = false) :
    (handleFormSubmit st NetOutcome.fetchFail nowIso nowEpoch).2.errorNotifications = [] ∧
      (handleFormSubmit st NetOutcome.fetchFail nowIso nowEpoch).2.successShown =
        some { submissionId := "SUB_" ++ toString nowEpoch, timestamp := nowIso
               message := "Data submitted successfully" } ∧
      (handleFormSubmit st (NetOutcome.httpNotOk status) nowIso nowEpoch).2.errorNotifications = [] ∧
      (handleFormSubmit st (NetOutcome.httpNotOk status) nowIso nowEpoch).2.successShown =
        some { submissionId := "SUB_" ++ toString nowEpoch, timestamp := nowIso
               message := "Data submitted successfully" } ∧
      (handleFormSubmit st NetOutcome.okParseFail nowIso nowEpoch).2.errorNotifications = [] ∧
      (handleFormSubmit st NetOutcome.okParseFail nowIso nowEpoch).2.successShown =
        some { submissionId := "SUB_" ++ toString nowEpoch, timestamp := nowIso
               message := "Data submitted successfully" } ∧
      (handleFormSubmit st (NetOutcome.okBody b) nowIso nowEpoch).2.errorNotifications =
        [jsOrElse b.message "Submission failed"] ∧
      (handleFormSubmit st (NetOutcome.okBody b) nowIso nowEpoch).2.successShown = none := by
  simp only [handleFormSubmit]
  rw [hv]
  have hmsg : jsOrElse b.message "Submission failed" ≠ "" := by
    unfold jsOrElse
    cases b.message with
    | none => simp
    | some m =>
      by_cases hm : m = ""
      · simp [hm]
      · simp [hm]
  refine ⟨?_, ?_, ?_, ?_, ?_, ?_, ?_, ?_⟩ <;>
    simp [submitData, simulatedResponse, getFormData, hb, hmsg]

/-- C2 witness: concrete valid form, a 500 response and a
server-reported failure body exercise both branches. -/
theorem failure_mode_split_witness :
    (checkFormValidity validForm).2 = true ∧
      ({ success := false, message := some "boom", data := none : RespBody }.success = false) ∧
      ((handleFormSubmit validForm NetOutcome.fetchFail "2024-05-01T10:00:00.000Z" 1700).2.errorNotifications = [] ∧
        (handleFormSubmit validForm NetOutcome.fetchFail "2024-05-01T10:00:00.000Z" 1700).2.successShown =
          some { submissionId := "SUB_" ++ toString 1700, timestamp := "2024-05-01T10:00:00.000Z"
                 message := "Data submitted successfully" } ∧
        (handleFormSubmit validForm (NetOutcome.httpNotOk 500) "2024-05-01T10:00:00.000Z" 1700).2.errorNotifications = [] ∧
        (handleFormSubmit validForm (NetOutcome.httpNotOk 500) "2024-05-01T10:00:00.000Z" 1700).2.successShown =
          some { submissionId := "SUB_" ++ toString 1700, timestamp := "2024-05-01T10:00:00.000Z"
                 message := "Data submitted successfully" } ∧
        (handleFormSubmit validForm NetOutcome.okParseFail "2024-05-01T10:00:00.000Z" 1700).2.errorNotifications = [] ∧
        (handleFormSubmit validForm NetOutcome.okParseFail "2024-05-01T10:00:00.000Z" 1700).2.successShown =
          some { submissionId := "SUB_" ++ toString 1700, timestamp := "2024-05-01T10:00:00.000Z"
                 message := "Data submitted successfully" } ∧
        (handleFormSubmit validForm (NetOutcome.okBody { success := false, message := some "boom", data := none }) "2024-05-01T10:00:00.000Z" 1700).2.errorNotifications =
          [jsOrElse (some "boom") "Submission failed"] ∧
        (handleFormSubmit validForm (NetOutcome.okBody { success := false, message := some "boom", data := none }) "2024-05-01T10:00:00.000Z" 1700).2.successShown = none) :=
  ⟨by decide, by decide,
    failure_mode_split validForm "2024-05-01T10:00:00.000Z" 1700 500
      { success := false, message := some "boom", data := none } (by decide) (by decide)⟩

/-- C10: submitData is total over its failure modes — every rejected
fetch, non-2xx status, or parse failure yields the simulated success
value (locally generated submissionId, passthrough timestamp) rather
than propagating — so on a valid submission the caller's error branch
runs exactly when the endpoint itself returned a parsed body with
success false. -/
theorem submitData_total (st : FormState) (net : NetOutcome)
    (nowIso : String) (nowEpoch : Nat) (status : Nat)
    (hv : (checkFormValidity st).2 = true) :
    (submitData NetOutcome.fetchFail nowEpoch (getFormData st nowIso)).1 =
        { success := true, message := none
          data := some { submissionId := "SUB_" ++ toString nowEpoch
                         timestamp := nowIso
                         message := "Data submitted successfully" } } ∧
      (submitData (NetOutcome.httpNotOk status) nowEpoch (getFormData st nowIso)).1 =
        { success := true, message := none
          data := some { submissionId := "SUB_" ++ toString nowEpoch
                         timestamp := nowIso
                         message := "Data submitted successfully" } } ∧
      (submitData NetOutcome.okParseFail nowEpoch (getFormData st nowIso)).1 =
        { success := true, message := none
          data := some { submissionId := "SUB_" ++ toString nowEpoch
                         timestamp := nowIso
                         message := "Data submitted successfully" } } ∧
      ((handleFormSubmit st net nowIso nowEpoch).2.errorNotifications ≠ [] ↔
        netServerFailure net = true) := by
  refine ⟨rfl, rfl, rfl, ?_⟩
  simp only [handleFormSubmit]
  rw [hv]
  cases net with
  | fetchFail => simp [submitData, simulatedResponse, netServerFailure]
  | httpNotOk status2 => simp [submitData, simulatedResponse, netServerFailure]
  | okParseFail => simp [submitData, simulatedResponse, netServerFailure]
  | okBody b =>
    cases hb : b.success with
    | true => simp [submitData, netServerFailure, hb]
    | false =>
      have hmsg : jsOrElse b.message "Submission failed" ≠ "" := by
        unfold jsOrElse
        cases b.message with
        | none => simp
        | some m =>
          by_cases hm : m = ""
          · simp [hm]
          · simp [hm]
      simp [submitData, netServerFailure, hb, hmsg]

/-- C10 witness: on the valid form with a rejected fetch, the simulated
success is returned and no error branch runs. -/
theorem submitData_total_witness :
    (checkFormValidity validForm).2 = true ∧
      ((submitData NetOutcome.fetchFail 1700 (getFormData validForm "2024-05-01T10:00:00.000Z")).1 =
          { success := true, message := none
            data := some { submissionId := "SUB_" ++ toString 1700
                           timestamp := "2024-05-01T10:00:00.000Z"
                           message := "Data submitted successfully" } } ∧
        (submitData (NetOutcome.httpNotOk 500) 1700 (getFormData validForm "2024-05-01T10:00:00.000Z")).1 =
          { success := true, message := none
            data := some { submissionId := "SUB_" ++ toString 1700
                           timestamp := "2024-05-01T10:00:00.000Z"
                           message := "Data submitted successfully" } } ∧
        (submitData NetOutcome.okParseFail 1700 (getFormData validForm "2024-05-01T10:00:00.000Z")).1 =
          { success := true, message := none
            data := some { submissionId := "SUB_" ++ toString 1700
                           timestamp := "2024-05-01T10:00:00.000Z"
                           message := "Data submitted successfully" } } ∧
        ((handleFormSubmit validForm NetOutcome.fetchFail "2024-05-01T10:00:00.000Z" 1700).2.errorNotifications ≠ [] ↔
          netServerFailure NetOutcome.fetchFail = true)) :=
  ⟨by decide,
    submitData_total validForm NetOutcome.fetchFail "2024-05-01T10:00:00.000Z" 1700 500 (by decide)⟩

/-- C4 counterexample: resetting the camera from the Captured state
stops the stream and reaches Idle, but appends no onImageCaptured
notification and leaves the downstream controller's artifact in place —
the claimed absence notification and artifact clearing do not happen in
the capture controller's reset. -/
theorem reset_no_absence_notification :
    (resetCamera capturedApp).notified = [some "IMG"] ∧
      (resetCamera capturedApp).form.capturedImageData = some "IMG" ∧
      captureState (resetCamera capturedApp).camera = CaptureState.Idle := by
  decide

/-- C4 amended: reset from any state with a held stream stops every
track exactly once (further resets and the teardown path add no stops),
returns the controller to Idle, and sends no downstream notification;
the downstream artifact is cleared only by the form-reset flow, which
nulls it directly on the form before invoking the camera reset. -/
theorem reset_releases_stream_once (a : AppState) (ts : List Nat)
    (h : a.camera.stream = some ts) :
    (resetCamera a).stoppedTracks = a.stoppedTracks ++ ts ∧
      (resetCamera a).camera.stream = none ∧
      captureState (resetCamera a).camera = CaptureState.Idle ∧
      (resetCamera (resetCamera a)).stoppedTracks = a.stoppedTracks ++ ts ∧
      (destroy (resetCamera a)).stoppedTracks = a.stoppedTracks ++ ts ∧
      destroy a = resetCamera a ∧
      (resetCamera a).notified = a.notified ∧
      (resetCamera a).form = a.form ∧
      (handleFormReset a).form.capturedImageData = none ∧
      (handleFormReset a).camera.stream = none ∧
      (handleFormReset a).stoppedTracks = a.stoppedTracks ++ ts := by
  refine ⟨?_, rfl, rfl, ?_, ?_, rfl, rfl, rfl, rfl, rfl, ?_⟩ <;>
    simp [resetCamera, destroy, handleFormReset, showStartControls, h]

/-- C4 amended witness: the Captured page releases tracks 7 and 8 once
and only the form-reset flow clears the artifact. -/
theorem reset_releases_stream_once_witness :
    capturedApp.camera.stream = some [7, 8] ∧
      ((resetCamera capturedApp).stoppedTracks = capturedApp.stoppedTracks ++ [7, 8] ∧
        (resetCamera capturedApp).camera.stream = none ∧
        captureState (resetCamera capturedApp).camera = CaptureState.Idle ∧
        (resetCamera (resetCamera capturedApp)).stoppedTracks = capturedApp.stoppedTracks ++ [7, 8] ∧
        (destroy (resetCamera capturedApp)).stoppedTracks = capturedApp.stoppedTracks ++ [7, 8] ∧
        destroy capturedApp = resetCamera capturedApp ∧
        (resetCamera capturedApp).notified = capturedApp.notified ∧
        (resetCamera capturedApp).form = capturedApp.form ∧
        (handleFormReset capturedApp).form.capturedImageData = none ∧
        (handleFormReset capturedApp).camera.stream = none ∧
        (handleFormReset capturedApp).stoppedTracks = capturedApp.stoppedTracks ++ [7, 8]) :=
  ⟨by decide, reset_releases_stream_once capturedApp [7, 8] (by decide)⟩

/-- C9: a retake from the Captured state clears the downstream artifact,
appends exactly one absence notification, leaves the stream and the stop
log untouched (neither stopped nor re-acquired), and returns the
controller to Active. -/
theorem retake_clears_once_keeps_stream (a : AppState) (ts : List Nat)
    (h1 : a.camera.stream = some ts) (h2 : a.camera.isCaptured = true) :
    (retakePhoto a).form.capturedImageData = none ∧
      (retakePhoto a).notified = a.notified ++ [none] ∧
      (retakePhoto a).camera.stream = a.camera.stream ∧
      (retakePhoto a).camera.videoSrcObject = a.camera.videoSrcObject ∧
      (retakePhoto a).stoppedTracks = a.stoppedTracks ∧
      captureState a.camera = CaptureState.Captured ∧
      captureState (retakePhoto a).camera = CaptureState.Active := by
  refine ⟨rfl, rfl, rfl, rfl, rfl, ?_, ?_⟩ <;>
    simp [captureState, retakePhoto, showCaptureControls, h1, h2]

/-- C9 witness: the Captured page retakes — one absence notification,
stream untouched, back to Active. -/
theorem retake_clears_once_keeps_stream_witness :
    capturedApp.camera.stream = some [7, 8] ∧ capturedApp.camera.isCaptured = true ∧
      ((retakePhoto capturedApp).form.capturedImageData = none ∧
        (retakePhoto capturedApp).notified = capturedApp.notified ++ [none] ∧
        (retakePhoto capturedApp).camera.stream = capturedApp.camera.stream ∧
        (retakePhoto capturedApp).camera.videoSrcObject = capturedApp.camera.videoSrcObject ∧
        (retakePhoto capturedApp).stoppedTracks = capturedApp.stoppedTracks ∧
        captureState capturedApp.camera = CaptureState.Captured ∧
        captureState (retakePhoto capturedApp).camera = CaptureState.Active) :=
  ⟨by decide, by decide, retake_clears_once_keeps_stream capturedApp [7, 8] (by decide) (by decide)⟩
